import Mathlib

/-!
Verification model of `sunstorm.py` (UnknownCoder13/Sunstorm-gui).

The Python source is shallowly embedded: each external invocation made through
`execute` is modelled as its argument vector (a `List String`) together with the
`ignore_errors` flag it was issued with; the pipeline functions are modelled as
pure functions producing the ordered list of argument vectors they would issue,
the `print_error` lines they would emit, and the process outcome.  `st_mode`
values are plain naturals, and the string manipulations (`oct(...)[-3:]`,
`int(...)`, `os.path.dirname`, `os.path.basename`, `str.startswith`,
`str.endswith`, `str.lower`) are re-implemented over `List Char`.
-/

namespace Sunstorm

/-- Model of Python `str.lower()` restricted to ASCII input (`Char.toLower`
lower-cases exactly the ASCII upper-case letters). -/
def lowerStr (s : String) : String := ⟨s.toList.map Char.toLower⟩

/-- Model of Python `s.startswith(pre)`. -/
def startsB (pre s : String) : Bool := pre.toList.isPrefixOf s.toList

/-- Model of Python `s.endswith(pat)`. -/
def endsB (s pat : String) : Bool := pat.toList.isSuffixOf s.toList

/-- Core of `os.path.basename`: the characters after the last `/`. -/
def basenameL (l : List Char) : List Char :=
  (l.reverse.takeWhile (fun c => !(c == '/'))).reverse

/-- Core of `os.path.dirname` (posixpath): the characters before the last `/`,
with trailing slashes stripped unless the head consists only of slashes. -/
def dirnameL (l : List Char) : List Char :=
  let headRev := l.reverse.dropWhile (fun c => !(c == '/'))
  if headRev.all (fun c => c == '/') then headRev.reverse
  else (headRev.dropWhile (fun c => c == '/')).reverse

/-- Model of `os.path.basename`. -/
def basename (s : String) : String := ⟨basenameL s.toList⟩

/-- Model of `os.path.dirname`. -/
def dirname (s : String) : String := ⟨dirnameL s.toList⟩

/-- The path normalisation of `linux_hfsplus_sync`: prepend `/` unless the
relative path already starts with one (source lines 126-127 and 138-139). -/
def normPath (p : String) : String := if startsB "/" p then p else "/" ++ p

/-- The last three octal digits of a mode, as the three-character string that
`oct(st_mode)[-3:]` yields for any `st_mode` carrying file-type bits. -/
def octStr3 (v : Nat) : String :=
  ⟨[Nat.digitChar (v / 64 % 8), Nat.digitChar (v / 8 % 8), Nat.digitChar (v % 8)]⟩

/-- Model of Python `int(s)` on a string of decimal digits. -/
def intDec (s : String) : Nat :=
  s.toList.foldl (fun a c => a * 10 + (c.toNat - 48)) 0

/-- The file-type nibble of an `st_mode` value (`S_IFMT >> 12`):
`4` = directory, `8` = regular file, `10` = symlink. -/
def fmtNibble (m : Nat) : Nat := m / 4096 % 16

/-- One staged filesystem object as seen by `linux_hfsplus_sync`'s content
pass: its path relative to `{work}/ramdisk`, its `lstat` mode
(`os.stat(file, follow_symlinks=False).st_mode`), the value of
`os.path.isdir(file)` (which follows symlinks, hence is an extra input for
symlinks), and the `os.readlink` target (meaningful only for symlinks). -/
structure FSEntry where
  path : String
  mode : Nat
  isdirResolved : Bool
  linkTarget : String
deriving DecidableEq

/-- Filesystem consistency of an entry: `os.path.isdir` agrees with the
`lstat` file type for directories and regular files (for symlinks it depends
on the link target and stays free). -/
def wfEntry (e : FSEntry) : Prop :=
  (fmtNibble e.mode = 4 → e.isdirResolved = true) ∧
  (fmtNibble e.mode = 8 → e.isdirResolved = false)

instance (e : FSEntry) : Decidable (wfEntry e) := by
  unfold wfEntry; infer_instance

/-- The commands issued for one entry of the content pass of
`linux_hfsplus_sync` (source lines 132-156): capture the low three octal
digits of the mode, skip entries for which `os.path.isdir` holds, escalate the
permission string to `100755` when the dirname ends in `bin`/`sbin`/`libexec`
and the decimal reading of the captured digits is below 755, then `link` or
`add` followed by `chmod`. -/
def contentOps (work : String) (e : FSEntry) : List (List String) :=
  let permission := octStr3 (e.mode % 512)
  let dn := dirname e.path
  let path := normPath e.path
  if e.isdirResolved then []
  else
    let permission :=
      if (endsB dn "bin" || endsB dn "sbin" || endsB dn "libexec")
          && decide (intDec permission < 755) then "100755" else permission
    (if fmtNibble e.mode = 10 then
      [["hfsplus", work ++ "/ramdisk.dmg", "link", path, e.linkTarget]]
    else
      [["hfsplus", work ++ "/ramdisk.dmg", "add", work ++ "/ramdisk/" ++ e.path, path]])
    ++ [["hfsplus", work ++ "/ramdisk.dmg", "chmod", permission, path]]

/-- The directory pass of `linux_hfsplus_sync` (source lines 123-129): one
`mkdir` per staged directory path. -/
def mkdirOps (work : String) (dirs : List String) : List (List String) :=
  dirs.map (fun d => ["hfsplus", work ++ "/ramdisk.dmg", "mkdir", normPath d])

/-- Every command of both synthesis passes, each paired with the
`ignore_errors` flag it is issued with (`True` throughout, source lines
129, 151, 154, 156). -/
def syncSteps (work : String) (dirs : List String) (files : List FSEntry) :
    List (List String × Bool) :=
  (mkdirOps work dirs).map (fun c => (c, true))
  ++ files.flatMap (fun e => (contentOps work e).map (fun c => (c, true)))

/-- Process outcome: normal completion, `sys.exit(code)`, or an uncaught
Python exception. -/
inductive Outcome where
  | ok
  | exited (code : Nat)
  | pyerror (msg : String)
deriving DecidableEq

/-- Model of the `execute` wrapper (source lines 88-105) iterated over a
command list: `f i` is the exit status of the `i`-th command; a non-zero
status of a command issued without `ignore_errors` terminates the process
with `sys.exit(1)` after that command ran. -/
def runSteps : List (List String × Bool) → (Nat → Nat) → Nat → List (List String) × Outcome
  | [], _, _ => ([], .ok)
  | (c, ign) :: rest, f, i =>
    if f i > 0 && !ign then ([c], .exited 1)
    else
      let r := runSteps rest f (i + 1)
      (c :: r.1, r.2)

/-- Model of `linux_hfsplus_sync` (source lines 107-156): fatal precondition
check that `{work}/ramdisk` and `{work}/ramdisk.dmg` exist, then both passes
run under the exit-status oracle `f`. -/
def linux_hfsplus_sync (work : String) (ramdiskExists dmgExists : Bool)
    (dirs : List String) (files : List FSEntry) (f : Nat → Nat) :
    List (List String) × Outcome :=
  if ramdiskExists && dmgExists then runSteps (syncSteps work dirs files) f 0
  else ([], .exited 1)

/-- One build identity of a firmware manifest: its board key and the mapping
from component names to relative paths. -/
structure BuildIdentity where
  boardConfig : String
  components : List (String × String)
deriving DecidableEq

/-- A parsed build manifest. -/
structure Manifest where
  identities : List BuildIdentity
  productBuildVersion : String
deriving DecidableEq

/-- Modelled from the spec: the `Manifest` class (imported from
`src/manifest.py`, a repository file not included under `src/`) supplies
`get_comp`; per spec section 4.1 it performs a case-insensitive exact match of
the board config against each identity's board key and returns the mapped path
for the component name, or `none` when the board or the component is absent. -/
def get_comp (m : Manifest) (board comp : String) : Option String :=
  match m.identities.find? (fun i => lowerStr i.boardConfig == lowerStr board) with
  | some i => (i.components.find? (fun kv => kv.1 == comp)).map (fun kv => kv.2)
  | none => none

/-- The board-config resolution a pipeline run performs for a raw command-line
board argument: `main` lower-cases the argument (source line 500) before the
pipelines pass it to `get_comp`. -/
def resolveBoardArg (m : Manifest) (boardArg comp : String) : Option String :=
  get_comp m (lowerStr boardArg) comp

/-- A line emitted by `print_error` (source lines 45-47). -/
def perr (s : String) : String := "[!] Error: " ++ s

/-- Observable result of a pipeline run: the argument vectors issued to
external tools in order, the `print_error` lines emitted, and the outcome. -/
structure PrepResult where
  cmds : List (List String)
  errs : List String
  outcome : Outcome
deriving DecidableEq

/-- The commands both synthesis passes issue, in order, when every command is
tolerated (as they all are): used where a pipeline embeds a synthesis run. -/
def syncCmds (work : String) (dirs : List String) (files : List FSEntry) :
    List (List String) :=
  (syncSteps work dirs files).map Prod.fst

/-- The mount-or-extract stage of `prep_restore` (source lines 185-198). -/
def mountStage (work : String) (linux : Bool) : List (List String) :=
  if linux then
    [["hfsplus", work ++ "/ramdisk.dmg", "extract", "/usr/sbin/asr", work ++ "/ramdisk/usr/sbin/asr"],
     ["hfsplus", work ++ "/ramdisk.dmg", "extract", "/usr/local/bin/restored_external", work ++ "/ramdisk/usr/local/bin/restored_external"],
     ["hfsplus", work ++ "/ramdisk.dmg", "rm", "/usr/sbin/asr"],
     ["hfsplus", work ++ "/ramdisk.dmg", "rm", "/usr/local/bin/restored_external"]]
  else
    [["hdiutil", "attach", work ++ "/ramdisk.dmg", "-mountpoint", work ++ "/ramdisk"]]

/-- The extra-ramdisk unpack-and-grow stage (source lines 200-207;
`str(round(5e+8))` is `"500000000"`). -/
def extraStage (work : String) (linux : Bool) (x : String) : List (List String) :=
  [["tar", "-C", work ++ "/ramdisk/", "-xf", x]]
  ++ (if linux then [["hfsplus", work ++ "/ramdisk.dmg", "grow", "500000000"]]
      else [["hdiutil", "resize", "-size", "5120MB", work ++ "/ramdisk.dmg"]])

/-- The `asr` patch/resign/copy-back stage (source lines 209-226). -/
def asrStage (work : String) : List (List String) :=
  [["asr64_patcher", work ++ "/ramdisk/usr/sbin/asr", work ++ "/patched_asr"],
   ["ldid", "-e", work ++ "/ramdisk/usr/sbin/asr"],
   ["ldid", "-S" ++ (work ++ "/asr.plist"), work ++ "/patched_asr"],
   ["chmod", "-R", "755", work ++ "/patched_asr"],
   ["cp", work ++ "/patched_asr", work ++ "/ramdisk/usr/sbin/asr"]]

/-- The `restored_external` patch/resign/copy-back stage, skipped under
`legacy` (source lines 230-247). -/
def reStage (work : String) : List (List String) :=
  [["restored_external64_patcher", work ++ "/ramdisk/usr/local/bin/restored_external", work ++ "/restored_external_patched"],
   ["ldid", "-e", work ++ "/ramdisk/usr/local/bin/restored_external"],
   ["ldid", "-S" ++ (work ++ "/restored_external.plist"), work ++ "/restored_external_patched"],
   ["chmod", "-R", "755", work ++ "/restored_external_patched"],
   ["cp", work ++ "/restored_external_patched", work ++ "/ramdisk/usr/local/bin/restored_external"]]

/-- The detach stage of `prep_restore` (source lines 249-262): on Linux the
synthesis runs when an extra ramdisk was supplied, then `asr` and
`restored_external` are re-added and chmodded unconditionally. -/
def sealStage (work : String) (linux hasExtra : Bool)
    (dirs : List String) (files : List FSEntry) : List (List String) :=
  if linux then
    (if hasExtra then syncCmds work dirs files else [])
    ++ [["hfsplus", work ++ "/ramdisk.dmg", "add", work ++ "/ramdisk/usr/sbin/asr", "/usr/sbin/asr"],
        ["hfsplus", work ++ "/ramdisk.dmg", "add", work ++ "/ramdisk/usr/local/bin/restored_external", "/usr/local/bin/restored_external"],
        ["hfsplus", work ++ "/ramdisk.dmg", "chmod", "100755", "/usr/sbin/asr"],
        ["hfsplus", work ++ "/ramdisk.dmg", "chmod", "100755", "/usr/local/bin/restored_external"]]
  else
    [["hdiutil", "detach", work ++ "/ramdisk"]]

/-- The kernel extract/patch/rebuild stage of `prep_restore` (source lines
270-289); `sys.executable` is modelled as `"python3"`. -/
def restoreKernelStage (work : String) (kpp : Bool) (kc : String) : List (List String) :=
  [["python3", "-m", "pyimg4", "im4p", "extract", "-i", work ++ "/" ++ kc, "-o", work ++ "/kcache.raw"]
     ++ (if kpp then ["--extra", work ++ "/kpp.bin"] else []),
   ["Kernel64Patcher", work ++ "/kcache.raw", work ++ "/krnl.patched", "-f", "-a"],
   ["python3", "-m", "pyimg4", "im4p", "create", "-i", work ++ "/krnl.patched", "-o", work ++ "/krnl.im4p", "-f", "rkrn", "--lzss"]
     ++ (if kpp then ["--extra", work ++ "/kpp.bin"] else [])]

/-- The final `futurerestore` invocation offered to the user (source line 299). -/
def futurerestoreCmd (work ipsw blob : String) (skipBaseband : Bool) : List String :=
  ["futurerestore", "-t", blob, "--use-pwndfu", "--skip-blob",
   "--rdsk", work ++ "/ramdisk.im4p", "--rkrn", work ++ "/krnl.im4p", "--latest-sep",
   if skipBaseband then "--no-baseband" else "--latest-baseband", ipsw]

/-- Model of `prep_restore` (source lines 158-317) under the assumption that
every issued command succeeds.  Inputs: the temp directory path, the ipsw and
blob paths, the (already lower-cased) board config, the parsed manifest, the
platform and flag booleans, the optional extra-ramdisk path, the staged
directory/file entries the synthesis would see, and the user's answer to the
restore-now prompt.  An absent `RestoreRamDisk` resolution is the fatal
`BoardConfig was not recognized` exit; an absent `RestoreKernelCache`
resolution raises `TypeError` when `f-string + None` is evaluated at source
line 272. -/
def prep_restore (work ipsw blob board : String) (m : Manifest)
    (linux legacy kpp skipBaseband : Bool) (extra : Option String)
    (dirs : List String) (files : List FSEntry) (ask : Bool) : PrepResult :=
  match get_comp m board "RestoreRamDisk" with
  | none => ⟨[], [perr "Error: BoardConfig was not recognized"], .exited 1⟩
  | some rd =>
    let pre :=
      [["img4", "-i", work ++ "/" ++ rd, "-o", work ++ "/ramdisk.dmg"]]
      ++ mountStage work linux
      ++ (match extra with
          | some x => extraStage work linux x
          | none => [])
      ++ asrStage work
      ++ (if legacy then [] else reStage work)
      ++ sealStage work linux extra.isSome dirs files
      ++ [["python3", "-m", "pyimg4", "im4p", "create", "-i", work ++ "/ramdisk.dmg", "-o", work ++ "/ramdisk.im4p", "-f", "rdsk"]]
    match get_comp m board "RestoreKernelCache" with
    | none => ⟨pre, [], .pyerror "TypeError"⟩
    | some kc =>
      ⟨pre ++ restoreKernelStage work kpp kc
           ++ (if ask then [futurerestoreCmd work ipsw blob skipBaseband] else []),
       [], .ok⟩

/-- Model of `cleanup_trim` (source lines 62-71): the paths whose removal is
attempted, out of the recursive glob results, are those whose basename does
not end in the suffix, that start with the work prefix, and only outside
debug mode. -/
def cleanup_trim (work suffix : String) (globResults : List String) (debug : Bool) :
    List String :=
  (globResults.filter (fun fn => !(endsB (basename fn) suffix))).filter
    (fun fn => startsB work fn && !debug)

/-- The kernel-and-auxiliary-ramdisk tail of `prep_boot` (source lines
391-449): an absent `KernelCache` raises `TypeError` at source line 397; with
an extra ramdisk an absent `RestoreRamDisk` is the fatal board-config exit at
source lines 426-428. -/
def bootKernelTail (work board : String) (m : Manifest) (linux kpp : Bool)
    (extra : Option String) (dirs : List String) (files : List FSEntry) :
    List (List String) × List String × Outcome :=
  match get_comp m board "KernelCache" with
  | none => ([], [], .pyerror "TypeError")
  | some kc =>
    let base :=
      [["python3", "-m", "pyimg4", "im4p", "extract", "-i", work ++ "/" ++ kc, "-o", work ++ "/kcache.raw"]
         ++ (if kpp then ["--extra", work ++ "/kpp.bin"] else []),
       ["Kernel64Patcher", work ++ "/kcache.raw", work ++ "/krnlboot.patched", "-f",
        if extra.isSome then "-a" else ""],
       ["python3", "-m", "pyimg4", "im4p", "create", "-i", work ++ "/krnlboot.patched", "-o", work ++ "/krnlboot.im4p", "-f", "rkrn", "--lzss"]
         ++ (if kpp then ["--extra", work ++ "/kpp.bin"] else []),
       ["python3", "-m", "pyimg4", "img4", "create", "-p", work ++ "/krnlboot.im4p", "-o", work ++ "/krnlboot.img4", "-m", "IM4M"]]
    match extra with
    | none => (base, [], .ok)
    | some x =>
      match get_comp m board "RestoreRamDisk" with
      | none => (base, [perr "Error: BoardConfig was not recognized"], .exited 1)
      | some rd =>
        (base
         ++ [["img4", "-i", work ++ "/" ++ rd, "-o", work ++ "/ramdisk.dmg"],
             ["tar", "-C", work ++ "/ramdisk/", "-xf", x]]
         ++ (if linux then [["hfsplus", work ++ "/ramdisk.dmg", "grow", "500000000"]]
             else [["hdiutil", "resize", "-size", "5120MB", work ++ "/ramdisk.dmg"]])
         ++ (if linux then syncCmds work dirs files
             else [["hdiutil", "detach", work ++ "/ramdisk"]])
         ++ [["img4", "-i", work ++ "/ramdisk.dmg", "-o", work ++ "/ramdisk.img4", "-M", "IM4M", "-A", "-T", "rdsk"]],
         [], .ok)

/-- The signing tail of `prep_boot` from the device tree on (source lines
376-389): an absent `DeviceTree` raises `TypeError` at source line 384;
`StaticTrustCache` is looked up and signed only outside legacy mode, and its
absence raises `TypeError` at source line 389. -/
def bootSignTail (work board : String) (m : Manifest) (legacy linux kpp : Bool)
    (extra : Option String) (dirs : List String) (files : List FSEntry) :
    List (List String) × List String × Outcome :=
  match get_comp m board "DeviceTree" with
  | none => ([], [], .pyerror "TypeError")
  | some dt =>
    let c8 := ["img4", "-i", work ++ "/" ++ dt, "-o", work ++ "/devicetree.img4", "-M", "IM4M", "-T", "rdtr"]
    if legacy then
      let t := bootKernelTail work board m linux kpp extra dirs files
      (c8 :: t.1, t.2.1, t.2.2)
    else
      match get_comp m board "StaticTrustCache" with
      | none => ([c8], [], .pyerror "TypeError")
      | some tc =>
        let t := bootKernelTail work board m linux kpp extra dirs files
        (c8 :: ["img4", "-i", work ++ "/" ++ tc, "-o", work ++ "/trustcache.img4", "-M", "IM4M", "-T", "rtsc"] :: t.1,
         t.2.1, t.2.2)

/-- Model of `prep_boot` (source lines 319-466) under the assumption that
every issued command succeeds.  The four loader decryption parameters come
from the external key provider (`api.get_keys`) and are taken as inputs; when
any of them is empty the warning at source lines 340-341 is emitted and the
run continues.  An absent `iBSS` (resp. `iBEC`) resolution raises `TypeError`
at source line 350 (resp. 354) before (resp. after) the first decrypt
command. -/
def prep_boot (work blob board : String) (m : Manifest)
    (linux kpp legacy : Bool) (extra : Option String)
    (ibssIv ibssKey ibecIv ibecKey bootArgs : String)
    (dirs : List String) (files : List FSEntry) : PrepResult :=
  let errs0 :=
    if ibssIv.isEmpty || ibssKey.isEmpty || ibecIv.isEmpty || ibecKey.isEmpty then
      [perr "Possible incorrect identifier or boardconfig"]
    else []
  match get_comp m board "iBSS", get_comp m board "iBEC" with
  | none, _ => ⟨[], errs0, .pyerror "TypeError"⟩
  | some ibss, none =>
    ⟨[["img4", "-i", work ++ "/" ++ ibss, "-o", work ++ "/ibss.dmg", "-k", ibssIv ++ ibssKey]],
     errs0, .pyerror "TypeError"⟩
  | some ibss, some ibec =>
    let head7 :=
      [["img4", "-i", work ++ "/" ++ ibss, "-o", work ++ "/ibss.dmg", "-k", ibssIv ++ ibssKey],
       ["img4", "-i", work ++ "/" ++ ibec, "-o", work ++ "/ibec.dmg", "-k", ibecIv ++ ibecKey],
       ["iBoot64Patcher", work ++ "/ibss.dmg", work ++ "/ibss.patched"],
       ["iBoot64Patcher", work ++ "/ibec.dmg", work ++ "/ibec.patched", "-n", "-b", "-v " ++ bootArgs],
       ["img4tool", "-e", "-s", blob, "-m", "IM4M"],
       ["img4", "-i", work ++ "/ibss.patched", "-o", work ++ "/ibss.img4", "-M", "IM4M", "-A", "-T", "ibss"],
       ["img4", "-i", work ++ "/ibec.patched", "-o", work ++ "/ibec.img4", "-M", "IM4M", "-A", "-T", "ibec"]]
    let t := bootSignTail work board m legacy linux kpp extra dirs files
    ⟨head7 ++ t.1, errs0 ++ t.2.1, t.2.2⟩

/-! ## Helper lemmas -/

@[simp]
lemma str_append_cancel_iff (w a b : String) : (w ++ a = w ++ b) ↔ a = b := by
  constructor
  · intro h
    have h2 := congrArg String.data h
    simp only [String.data_append] at h2
    exact String.ext (List.append_cancel_left h2)
  · intro h
    rw [h]

lemma basename_endsB (s : String) : endsB s (basename s) = true := by
  have h : (s.toList.reverse.takeWhile (fun c => !(c == '/'))).reverse <:+ s.toList := by
    conv_rhs => rw [← List.reverse_reverse s.toList]
    exact List.reverse_suffix.mpr ( List.takeWhile_prefix _)
  simpa [endsB, basename, basenameL, List.isSuffixOf_iff_suffix] using h

set_option maxRecDepth 4096 in
lemma intDec_octStr3 : ∀ v : Nat, v < 512 → (intDec (octStr3 v) < 755 ↔ v < 493) := by
  decide

lemma runSteps_tolerant (l : List (List String × Bool)) (f : Nat → Nat) :
    ∀ i, (∀ s ∈ l, s.2 = true) → runSteps l f i = (l.map Prod.fst, .ok) := by
  induction l with
  | nil => intro i _; rfl
  | cons s rest ih =>
    intro i h
    obtain ⟨c, ign⟩ := s
    have h1 : ign = true := h (c, ign) (by simp)
    subst h1
    simp [runSteps, ih (i + 1) (fun s hs => h s (by simp [hs]))]

lemma syncSteps_tolerant (work : String) (dirs : List String) (files : List FSEntry) :
    ∀ s ∈ syncSteps work dirs files, s.2 = true := by
  intro s hs
  simp only [syncSteps, List.mem_append, List.mem_map, List.mem_flatMap] at hs
  rcases hs with ⟨c, _, rfl⟩ | ⟨e, _, ⟨c, _, rfl⟩⟩ <;> rfl

lemma contentOps_head (work : String) (e : FSEntry) :
    ∀ cmd ∈ contentOps work e, ∃ r, cmd = "hfsplus" :: r := by
  intro cmd hc
  simp only [contentOps] at hc
  split at hc
  · simp at hc
  · simp only [List.mem_append, List.mem_cons, List.not_mem_nil, or_false] at hc
    rcases hc with hc | rfl
    · split at hc <;> simp at hc <;> exact ⟨_, hc⟩
    · exact ⟨_, rfl⟩

lemma syncCmds_head (work : String) (dirs : List String) (files : List FSEntry) :
    ∀ cmd ∈ syncCmds work dirs files, ∃ r, cmd = "hfsplus" :: r := by
  intro cmd hc
  simp only [syncCmds, syncSteps, mkdirOps, List.map_append, List.map_map,
    List.mem_append, List.mem_map, List.mem_flatMap, Function.comp] at hc
  rcases hc with ⟨d, _, rfl⟩ | ⟨a, ⟨e, _, c, hcm, rfl⟩, rfl⟩
  · exact ⟨_, rfl⟩
  · exact contentOps_head work e c hcm

@[simp]
lemma mem_syncCmds_eq_false (work : String) (dirs : List String) (files : List FSEntry)
    (s : String) (r : List String) (h : ¬s = "hfsplus") :
    ((s :: r) ∈ syncCmds work dirs files) = False := by
  simp only [eq_iff_iff, iff_false]
  intro hm
  obtain ⟨r2, hr⟩ := syncCmds_head work dirs files _ hm
  injection hr with h1 _
  exact h h1

lemma get_comp_eq_none_of_no_match (m : Manifest) (board comp : String)
    (h : ∀ i ∈ m.identities, lowerStr i.boardConfig ≠ lowerStr board) :
    get_comp m board comp = none := by
  unfold get_comp
  have hf : m.identities.find? (fun i => lowerStr i.boardConfig == lowerStr board) = none := by
    rw [List.find?_eq_none]
    intro i hi
    simpa using h i hi
  rw [hf]

/-! ## C1 -/

/-- C1: the spec claims that a staged file under `bin`/`sbin`/`libexec` whose
mode carries setuid bits (e.g. `0o104755`) keeps its full mode in the issued
chmod.  The code captures only the low three octal digits
(`oct(st_mode)[-3:]`), so for a setuid binary (`st_mode = 0o104755 = 35309`,
setuid bit `35309 / 2048 % 2 = 1`) the issued chmod carries `755`, stripping
the setuid bit — contradicting the source's own comment that the comparison
exists "to ensure setuid binaries keep permissions". -/
theorem c1_setuid_mode_downgraded :
    (35309 / 2048) % 2 = 1 ∧
    contentOps "/w" ⟨"usr/sbin/tool", 35309, false, ""⟩ =
      [["hfsplus", "/w/ramdisk.dmg", "add", "/w/ramdisk/usr/sbin/tool", "/usr/sbin/tool"],
       ["hfsplus", "/w/ramdisk.dmg", "chmod", "755", "/usr/sbin/tool"]] := by
  exact ⟨by decide, by decide⟩

/-! ## C6 -/

/-- C6: a staged non-directory entry whose parent directory name is `bin`,
`sbin` or `libexec` and whose captured permission is numerically weaker than
`0o755 = 493` receives a set-permissions command with mode `100755`.  The
hypotheses record the filesystem facts of the Linux-only call site: the entry
is a regular file or a symlink, and a symlink's `lstat` permission bits are
always `0o777`. -/
theorem c6_bin_escalation (work : String) (e : FSEntry) (hwf : wfEntry e)
    (hkind : fmtNibble e.mode = 8 ∨ fmtNibble e.mode = 10)
    (hlnk : fmtNibble e.mode = 10 → e.mode % 512 = 511)
    (hpar : basename (dirname e.path) = "bin" ∨ basename (dirname e.path) = "sbin" ∨
            basename (dirname e.path) = "libexec")
    (hperm : e.mode % 512 < 493) :
    ["hfsplus", work ++ "/ramdisk.dmg", "chmod", "100755", normPath e.path] ∈
      contentOps work e := by
  have hreg : fmtNibble e.mode = 8 := by
    rcases hkind with h | h
    · exact h
    · rw [hlnk h] at hperm
      exact absurd hperm (by decide)
  have hdir : e.isdirResolved = false := hwf.2 hreg
  have hnl : ¬(fmtNibble e.mode = 10) := by rw [hreg]; decide
  have hends : (endsB (dirname e.path) "bin" || endsB (dirname e.path) "sbin" ||
      endsB (dirname e.path) "libexec") = true := by
    rcases hpar with h | h | h <;>
      · have hb := basename_endsB (dirname e.path)
        rw [h] at hb
        simp [hb]
  have hlt : intDec (octStr3 (e.mode % 512)) < 755 :=
    (intDec_octStr3 _ (Nat.mod_lt _ (by decide))).mpr hperm
  simp [contentOps, hdir, hnl, hends, hlt]

/-- Witness for C6 at a concrete regular file `usr/sbin/tool` with mode
`0o100644 = 33188`. -/
theorem c6_witness :
    wfEntry ⟨"usr/sbin/tool", 33188, false, ""⟩ ∧
    ["hfsplus", "/w" ++ "/ramdisk.dmg", "chmod", "100755", normPath "usr/sbin/tool"] ∈
      contentOps "/w" ⟨"usr/sbin/tool", 33188, false, ""⟩ :=
  ⟨by decide,
   c6_bin_escalation "/w" ⟨"usr/sbin/tool", 33188, false, ""⟩ (by decide) (by decide)
     (by decide) (by decide) (by decide)⟩

/-! ## C7 -/

/-- C7 counterexample: a staged symlink (`fmtNibble = 10`) whose target
resolves to a directory (`os.path.isdir` follows links and returns `True`) is
skipped entirely by the content pass — no add-symlink is issued for it,
refuting the claim that every symlink round-trips. -/
theorem c7_counterexample_dir_symlink_skipped :
    fmtNibble 41471 = 10 ∧
    contentOps "/w" ⟨"usr/bin/foo", 41471, true, "../lib"⟩ = [] :=
  ⟨by decide, by decide⟩

/-- C7 amended: every staged symlink that does not resolve to a directory is
placed by an add-symlink command carrying its normalized destination path and
its exact readlink target, and no command issued for it is an add-file
(`add`) copy. -/
theorem c7_symlink_roundtrip (work : String) (e : FSEntry)
    (hl : fmtNibble e.mode = 10) (hd : e.isdirResolved = false) :
    ["hfsplus", work ++ "/ramdisk.dmg", "link", normPath e.path, e.linkTarget] ∈
      contentOps work e ∧
    ∀ cmd ∈ contentOps work e, cmd[2]? ≠ some "add" := by
  refine ⟨by simp [contentOps, hd, hl], ?_⟩
  intro cmd hc
  simp [contentOps, hd, hl] at hc
  rcases hc with rfl | rfl <;> simp

/-- Witness for C7 (amended) at a concrete symlink `usr/bin/foo` with target
`../lib/libfoo.so`. -/
theorem c7_witness :
    fmtNibble 41471 = 10 ∧
    (["hfsplus", "/w" ++ "/ramdisk.dmg", "link", normPath "usr/bin/foo", "../lib/libfoo.so"] ∈
       contentOps "/w" ⟨"usr/bin/foo", 41471, false, "../lib/libfoo.so"⟩ ∧
     ∀ cmd ∈ contentOps "/w" ⟨"usr/bin/foo", 41471, false, "../lib/libfoo.so"⟩,
       cmd[2]? ≠ some "add") :=
  ⟨by decide, c7_symlink_roundtrip "/w" ⟨"usr/bin/foo", 41471, false, "../lib/libfoo.so"⟩ rfl rfl⟩

/-! ## C8 -/

/-- C8: two board-config argument strings equal up to ASCII case resolve every
manifest component identically, because `main` lower-cases the argument before
resolution and the resolver matches case-insensitively. -/
theorem c8_case_insensitive_resolution (m : Manifest) (a b comp : String)
    (h : lowerStr a = lowerStr b) :
    resolveBoardArg m a comp = resolveBoardArg m b comp := by
  unfold resolveBoardArg
  rw [h]

/-- Witness for C8 on a concrete manifest with board key `ABC123`. -/
theorem c8_witness :
    lowerStr "AbC123" = lowerStr "abc123" ∧
    resolveBoardArg ⟨[⟨"ABC123", [("RestoreRamDisk", "090-1111-100.dmg")]⟩], "19A1"⟩
        "AbC123" "RestoreRamDisk" =
      resolveBoardArg ⟨[⟨"ABC123", [("RestoreRamDisk", "090-1111-100.dmg")]⟩], "19A1"⟩
        "abc123" "RestoreRamDisk" :=
  ⟨by decide,
   c8_case_insensitive_resolution ⟨[⟨"ABC123", [("RestoreRamDisk", "090-1111-100.dmg")]⟩], "19A1"⟩
     "AbC123" "abc123" "RestoreRamDisk" (by decide)⟩

/-! ## C9 -/

/-- C9: every per-entry command of both synthesis passes is issued tolerantly,
so whatever exit statuses the external primitives return, the synthesis issues
the complete command list and completes normally; only the precondition check
(staging root and target image both exist) terminates the process, with
status 1 and before any command. -/
theorem c9_tolerant_synthesis (work : String) (rdE dmgE : Bool)
    (dirs : List String) (files : List FSEntry) (f : Nat → Nat) :
    linux_hfsplus_sync work rdE dmgE dirs files f =
      if rdE && dmgE then ((syncSteps work dirs files).map Prod.fst, Outcome.ok)
      else ([], Outcome.exited 1) := by
  unfold linux_hfsplus_sync
  split
  · exact runSteps_tolerant _ f 0 (syncSteps_tolerant work dirs files)
  · rfl

/-! ## C10 -/

/-- C10: every path whose removal the pruning step attempts starts with the
working-directory prefix; paths outside the working directory are untouched. -/
theorem c10_prune_within_work (work suffix : String) (globResults : List String)
    (debug : Bool) :
    ∀ fn ∈ cleanup_trim work suffix globResults debug, startsB work fn = true := by
  intro fn h
  simp only [cleanup_trim, List.mem_filter, Bool.and_eq_true] at h
  exact h.2.1

/-- Witness for C10 at a concrete glob result inside the work directory. -/
theorem c10_witness :
    "/t/a.bin" ∈ cleanup_trim "/t" "im4p" ["/t/a.bin"] false ∧
    startsB "/t" "/t/a.bin" = true :=
  ⟨by decide, c10_prune_within_work "/t" "im4p" ["/t/a.bin"] false "/t/a.bin" (by decide)⟩

/-! ## C2 -/

/-- C2 counterexample: on Linux a legacy-mode restore run still performs the
image-level `extract` primitive naming `/usr/local/bin/restored_external`
(and likewise `rm`, `add` and `chmod`), refuting the claim that no operation
naming `restored_external` is performed with `legacy=true`. -/
theorem c2_counterexample_legacy_touches_re :
    ["hfsplus", "W" ++ "/ramdisk.dmg", "extract", "/usr/local/bin/restored_external",
     "W" ++ "/ramdisk/usr/local/bin/restored_external"] ∈
      (prep_restore "W" "i.ipsw" "b.shsh2" "d321ap"
        ⟨[⟨"d321ap", [("RestoreRamDisk", "rd.dmg"), ("RestoreKernelCache", "kc.im4p")]⟩], "19A1"⟩
        true true false false none [] [] false).cmds := by
  decide

/-- C2 amended: with `legacy=true` the restore pipeline issues none of the
five `restored_external` patch-stage commands (patcher, entitlement
extraction, resign, `chmod -R 755`, copy-back); the Linux image-level
extract/remove/add/set-permissions primitives naming
`/usr/local/bin/restored_external` are issued regardless of the flag. -/
theorem c2_legacy_skips_patch_stage (work ipsw blob board : String) (m : Manifest)
    (linux kpp skipBaseband : Bool) (extra : Option String)
    (dirs : List String) (files : List FSEntry) (ask : Bool) :
    ∀ cmd ∈ (prep_restore work ipsw blob board m linux true kpp skipBaseband extra
        dirs files ask).cmds, cmd ∉ reStage work := by
  intro cmd hc hre
  simp only [reStage, List.mem_cons, List.not_mem_nil, or_false] at hre
  rcases h1 : get_comp m board "RestoreRamDisk" with _ | rd
  · simp [prep_restore, h1] at hc
  · rcases h2 : get_comp m board "RestoreKernelCache" with _ | kc <;>
      rcases extra with _ | x <;> cases linux <;> cases ask <;>
      rcases hre with rfl | rfl | rfl | rfl | rfl <;>
      simp_all [prep_restore, mountStage, extraStage, asrStage, sealStage,
        restoreKernelStage, futurerestoreCmd]

/-- Witness for C2 (amended) at a concrete legacy Linux run: the initial
`img4` extraction command is issued and is not a patch-stage command. -/
theorem c2_witness :
    ["img4", "-i", "W" ++ "/" ++ "rd.dmg", "-o", "W" ++ "/ramdisk.dmg"] ∈
      (prep_restore "W" "i.ipsw" "b.shsh2" "d321ap"
        ⟨[⟨"d321ap", [("RestoreRamDisk", "rd.dmg"), ("RestoreKernelCache", "kc.im4p")]⟩], "19A1"⟩
        true true false false none [] [] false).cmds ∧
    ["img4", "-i", "W" ++ "/" ++ "rd.dmg", "-o", "W" ++ "/ramdisk.dmg"] ∉ reStage "W" :=
  ⟨by decide,
   c2_legacy_skips_patch_stage "W" "i.ipsw" "b.shsh2" "d321ap"
     ⟨[⟨"d321ap", [("RestoreRamDisk", "rd.dmg"), ("RestoreKernelCache", "kc.im4p")]⟩], "19A1"⟩
     true false false none [] [] false
     ["img4", "-i", "W" ++ "/" ++ "rd.dmg", "-o", "W" ++ "/ramdisk.dmg"] (by decide)⟩

/-! ## C3 -/

/-- C3: when no identity of the manifest matches the supplied board config
(case-insensitively), the restore pipeline emits the
`BoardConfig was not recognized` error line and exits with status 1 having
issued no external command at all. -/
theorem c3_unrecognized_board (work ipsw blob board : String) (m : Manifest)
    (linux legacy kpp skipBaseband : Bool) (extra : Option String)
    (dirs : List String) (files : List FSEntry) (ask : Bool)
    (h : ∀ i ∈ m.identities, lowerStr i.boardConfig ≠ lowerStr board) :
    prep_restore work ipsw blob board m linux legacy kpp skipBaseband extra dirs files ask =
      ⟨[], [perr "Error: BoardConfig was not recognized"], .exited 1⟩ := by
  have h0 := get_comp_eq_none_of_no_match m board "RestoreRamDisk" h
  simp [prep_restore, h0]

/-- Witness for C3: a manifest holding only board `d321ap`, queried with
`d999ap`. -/
theorem c3_witness :
    (∀ i ∈ (Manifest.mk [⟨"d321ap", [("RestoreRamDisk", "090-1111-100.dmg")]⟩] "19A1").identities,
      lowerStr i.boardConfig ≠ lowerStr "d999ap") ∧
    prep_restore "W" "i.ipsw" "b.shsh2" "d999ap"
        (Manifest.mk [⟨"d321ap", [("RestoreRamDisk", "090-1111-100.dmg")]⟩] "19A1")
        true false false false none [] [] false =
      ⟨[], [perr "Error: BoardConfig was not recognized"], .exited 1⟩ :=
  ⟨by decide,
   c3_unrecognized_board "W" "i.ipsw" "b.shsh2" "d999ap"
     (Manifest.mk [⟨"d321ap", [("RestoreRamDisk", "090-1111-100.dmg")]⟩] "19A1")
     true false false false none [] [] false (by decide)⟩

/-! ## C4 -/

/-- C4: when any of the four loader decryption parameters comes back empty,
the boot pipeline emits the `Possible incorrect identifier or boardconfig`
line but does not abort: both subsequent decrypt commands are still issued,
consuming the (possibly empty) concatenated iv+key values. -/
theorem c4_missing_keys_warn_and_proceed (work blob board : String) (m : Manifest)
    (linux kpp legacy : Bool) (extra : Option String)
    (iv1 k1 iv2 k2 bootArgs : String) (dirs : List String) (files : List FSEntry)
    (s1 s2 : String)
    (h1 : get_comp m board "iBSS" = some s1) (h2 : get_comp m board "iBEC" = some s2)
    (hk : (iv1.isEmpty || k1.isEmpty || iv2.isEmpty || k2.isEmpty) = true) :
    perr "Possible incorrect identifier or boardconfig" ∈
      (prep_boot work blob board m linux kpp legacy extra iv1 k1 iv2 k2 bootArgs dirs files).errs ∧
    ["img4", "-i", work ++ "/" ++ s1, "-o", work ++ "/ibss.dmg", "-k", iv1 ++ k1] ∈
      (prep_boot work blob board m linux kpp legacy extra iv1 k1 iv2 k2 bootArgs dirs files).cmds ∧
    ["img4", "-i", work ++ "/" ++ s2, "-o", work ++ "/ibec.dmg", "-k", iv2 ++ k2] ∈
      (prep_boot work blob board m linux kpp legacy extra iv1 k1 iv2 k2 bootArgs dirs files).cmds := by
  refine ⟨?_, ?_, ?_⟩ <;> simp [prep_boot, h1, h2, hk]

/-- Witness for C4 with an empty iBSS IV. -/
theorem c4_witness :
    ("".isEmpty || "k".isEmpty || "iv2".isEmpty || "k2".isEmpty) = true ∧
    (perr "Possible incorrect identifier or boardconfig" ∈
      (prep_boot "W" "b.shsh2" "d111ap"
        ⟨[⟨"d111ap", [("iBSS", "ibss.im4p"), ("iBEC", "ibec.im4p")]⟩], "19A1"⟩
        false false false none "" "k" "iv2" "k2" "" [] []).errs ∧
     ["img4", "-i", "W" ++ "/" ++ "ibss.im4p", "-o", "W" ++ "/ibss.dmg", "-k", "" ++ "k"] ∈
      (prep_boot "W" "b.shsh2" "d111ap"
        ⟨[⟨"d111ap", [("iBSS", "ibss.im4p"), ("iBEC", "ibec.im4p")]⟩], "19A1"⟩
        false false false none "" "k" "iv2" "k2" "" [] []).cmds ∧
     ["img4", "-i", "W" ++ "/" ++ "ibec.im4p", "-o", "W" ++ "/ibec.dmg", "-k", "iv2" ++ "k2"] ∈
      (prep_boot "W" "b.shsh2" "d111ap"
        ⟨[⟨"d111ap", [("iBSS", "ibss.im4p"), ("iBEC", "ibec.im4p")]⟩], "19A1"⟩
        false false false none "" "k" "iv2" "k2" "" [] []).cmds) :=
  ⟨by decide,
   c4_missing_keys_warn_and_proceed "W" "b.shsh2" "d111ap"
     ⟨[⟨"d111ap", [("iBSS", "ibss.im4p"), ("iBEC", "ibec.im4p")]⟩], "19A1"⟩
     false false false none "" "k" "iv2" "k2" "" [] [] "ibss.im4p" "ibec.im4p"
     (by decide) (by decide) (by decide)⟩

/-! ## C5 -/

/-- C5 counterexample: a boot run over a manifest whose matching identity
lacks `DeviceTree` (with all four keys present) emits no warning line at all,
refuting the claim that a component-lookup miss is surfaced as a warning; the
run instead dies with an uncaught `TypeError`. -/
theorem c5_counterexample_no_warning_on_miss :
    get_comp ⟨[⟨"d111ap", [("iBSS", "ibss.im4p"), ("iBEC", "ibec.im4p"),
        ("StaticTrustCache", "tc.im4p"), ("KernelCache", "kc.im4p")]⟩], "19A1"⟩
      "d111ap" "DeviceTree" = none ∧
    (prep_boot "W" "b.shsh2" "d111ap"
      ⟨[⟨"d111ap", [("iBSS", "ibss.im4p"), ("iBEC", "ibec.im4p"),
          ("StaticTrustCache", "tc.im4p"), ("KernelCache", "kc.im4p")]⟩], "19A1"⟩
      false false false none "iv" "k1" "iv2" "k2" "" [] []).errs = [] ∧
    (prep_boot "W" "b.shsh2" "d111ap"
      ⟨[⟨"d111ap", [("iBSS", "ibss.im4p"), ("iBEC", "ibec.im4p"),
          ("StaticTrustCache", "tc.im4p"), ("KernelCache", "kc.im4p")]⟩], "19A1"⟩
      false false false none "iv" "k1" "iv2" "k2" "" [] []).outcome = .pyerror "TypeError" := by
  exact ⟨by decide, by decide, by decide⟩

/-- C5 amended: every component lookup that yields no path, other than the
`RestoreRamDisk` board check, is silent — no warning line — and non-fatal at
the resolution point, with the fatal consequence deferred to the stage that
consumes the missing value, which dies with an uncaught `TypeError` at the
`f-string + None` concatenation.  The conjuncts cover each miss instance the
claim names: `iBSS`, `iBEC`, `DeviceTree` and `KernelCache` in the boot flow
(each after the commands preceding its consuming stage: 0, 1, 7, and 8 or 9
with the trust-cache signing), and `RestoreKernelCache` in the restore flow
(after the whole ramdisk stage, whose first command is still issued).  The
`hk` hypothesis only fixes the key-provider values as non-empty, so that the
empty error list shows no warning of any kind is printed for a miss. -/
theorem c5_miss_silent_deferred (work ipsw blob board : String) (m : Manifest)
    (linux kpp legacy skipBaseband : Bool) (extra : Option String)
    (iv1 k1 iv2 k2 bootArgs : String) (dirs : List String) (files : List FSEntry)
    (ask : Bool)
    (hk : (iv1.isEmpty || k1.isEmpty || iv2.isEmpty || k2.isEmpty) = false) :
    (get_comp m board "iBSS" = none →
      (prep_boot work blob board m linux kpp legacy extra iv1 k1 iv2 k2 bootArgs dirs files).errs = [] ∧
      (prep_boot work blob board m linux kpp legacy extra iv1 k1 iv2 k2 bootArgs dirs files).outcome = .pyerror "TypeError" ∧
      (prep_boot work blob board m linux kpp legacy extra iv1 k1 iv2 k2 bootArgs dirs files).cmds.length = 0) ∧
    (∀ s1, get_comp m board "iBSS" = some s1 → get_comp m board "iBEC" = none →
      (prep_boot work blob board m linux kpp legacy extra iv1 k1 iv2 k2 bootArgs dirs files).errs = [] ∧
      (prep_boot work blob board m linux kpp legacy extra iv1 k1 iv2 k2 bootArgs dirs files).outcome = .pyerror "TypeError" ∧
      (prep_boot work blob board m linux kpp legacy extra iv1 k1 iv2 k2 bootArgs dirs files).cmds.length = 1) ∧
    (∀ s1 s2, get_comp m board "iBSS" = some s1 → get_comp m board "iBEC" = some s2 →
      get_comp m board "DeviceTree" = none →
      (prep_boot work blob board m linux kpp legacy extra iv1 k1 iv2 k2 bootArgs dirs files).errs = [] ∧
      (prep_boot work blob board m linux kpp legacy extra iv1 k1 iv2 k2 bootArgs dirs files).outcome = .pyerror "TypeError" ∧
      (prep_boot work blob board m linux kpp legacy extra iv1 k1 iv2 k2 bootArgs dirs files).cmds.length = 7) ∧
    (∀ s1 s2 dt, get_comp m board "iBSS" = some s1 → get_comp m board "iBEC" = some s2 →
      get_comp m board "DeviceTree" = some dt →
      (legacy = true ∨ ∃ tc, get_comp m board "StaticTrustCache" = some tc) →
      get_comp m board "KernelCache" = none →
      (prep_boot work blob board m linux kpp legacy extra iv1 k1 iv2 k2 bootArgs dirs files).errs = [] ∧
      (prep_boot work blob board m linux kpp legacy extra iv1 k1 iv2 k2 bootArgs dirs files).outcome = .pyerror "TypeError" ∧
      (prep_boot work blob board m linux kpp legacy extra iv1 k1 iv2 k2 bootArgs dirs files).cmds.length =
        (if legacy then 8 else 9)) ∧
    (∀ rd, get_comp m board "RestoreRamDisk" = some rd →
      get_comp m board "RestoreKernelCache" = none →
      (prep_restore work ipsw blob board m linux legacy kpp skipBaseband extra dirs files ask).errs = [] ∧
      (prep_restore work ipsw blob board m linux legacy kpp skipBaseband extra dirs files ask).outcome = .pyerror "TypeError" ∧
      ["img4", "-i", work ++ "/" ++ rd, "-o", work ++ "/ramdisk.dmg"] ∈
        (prep_restore work ipsw blob board m linux legacy kpp skipBaseband extra dirs files ask).cmds) := by
  refine ⟨?_, ?_, ?_, ?_, ?_⟩
  · intro h1
    refine ⟨?_, ?_, ?_⟩ <;> simp [prep_boot, h1, hk]
  · intro s1 h1 h2
    refine ⟨?_, ?_, ?_⟩ <;> simp [prep_boot, h1, h2, hk]
  · intro s1 s2 h1 h2 hdt
    refine ⟨?_, ?_, ?_⟩ <;> simp [prep_boot, h1, h2, hk, bootSignTail, hdt]
  · intro s1 s2 dt h1 h2 hdt htc hkc
    rcases htc with hleg | ⟨tc, htc⟩
    · subst hleg
      refine ⟨?_, ?_, ?_⟩ <;>
        simp [prep_boot, h1, h2, hk, bootSignTail, bootKernelTail, hdt, hkc]
    · rcases hl : legacy with _ | _
      · refine ⟨?_, ?_, ?_⟩ <;>
          simp [prep_boot, h1, h2, hk, bootSignTail, bootKernelTail, hdt, htc, hkc, hl]
      · refine ⟨?_, ?_, ?_⟩ <;>
          simp [prep_boot, h1, h2, hk, bootSignTail, bootKernelTail, hdt, hkc, hl]
  · intro rd hrd hkc
    refine ⟨?_, ?_, ?_⟩ <;> simp [prep_restore, hrd, hkc]

/-- Witness for C5 (amended), exercising the `RestoreKernelCache` conjunct on
a concrete manifest whose identity has a ramdisk but no restore kernel
cache. -/
theorem c5_witness :
    get_comp ⟨[⟨"d222ap", [("RestoreRamDisk", "rd.dmg"), ("iBSS", "i1")]⟩], "19A1"⟩
        "d222ap" "RestoreRamDisk" = some "rd.dmg" ∧
    get_comp ⟨[⟨"d222ap", [("RestoreRamDisk", "rd.dmg"), ("iBSS", "i1")]⟩], "19A1"⟩
        "d222ap" "RestoreKernelCache" = none ∧
    ((prep_restore "W" "i.ipsw" "b.shsh2" "d222ap"
        ⟨[⟨"d222ap", [("RestoreRamDisk", "rd.dmg"), ("iBSS", "i1")]⟩], "19A1"⟩
        false false false false none [] [] false).errs = [] ∧
     (prep_restore "W" "i.ipsw" "b.shsh2" "d222ap"
        ⟨[⟨"d222ap", [("RestoreRamDisk", "rd.dmg"), ("iBSS", "i1")]⟩], "19A1"⟩
        false false false false none [] [] false).outcome = .pyerror "TypeError" ∧
     ["img4", "-i", "W" ++ "/" ++ "rd.dmg", "-o", "W" ++ "/ramdisk.dmg"] ∈
       (prep_restore "W" "i.ipsw" "b.shsh2" "d222ap"
        ⟨[⟨"d222ap", [("RestoreRamDisk", "rd.dmg"), ("iBSS", "i1")]⟩], "19A1"⟩
        false false false false none [] [] false).cmds) :=
  ⟨by decide, by decide,
   (c5_miss_silent_deferred "W" "i.ipsw" "b.shsh2" "d222ap"
      ⟨[⟨"d222ap", [("RestoreRamDisk", "rd.dmg"), ("iBSS", "i1")]⟩], "19A1"⟩
      false false false false none "iv" "k1" "iv2" "k2" "" [] [] false
      (by decide)).2.2.2.2 "rd.dmg" (by decide) (by decide)⟩

end Sunstorm
